import Mathlib

/-!
Verification of the Vulkan renderer front-end
(`src/video_core/renderer_vulkan/renderer_vulkan.cpp`).

The development shallowly embeds the observable behaviour of the renderer:
`SwapBuffers` (the per-frame protocol), `ShutDown`, `PickDevices`,
`BuildCommaSeparatedExtensions`, `GetDriverVersion` and `GetReadableVersion`.
Calls into collaborators (rasterizer, scheduler, swapchain, blit screen,
window) are recorded as events in a trace; results returned by collaborators
(`AccelerateDisplay`, `Present` staleness, device suitability, logical-device
creation) are oracle inputs.
-/

namespace RendererVulkan

/-- Window layout polled from the window collaborator
(`render_window.GetFramebufferLayout()`): width and height in pixels. -/
structure FramebufferLayout where
  width : Nat
  height : Nat
  deriving DecidableEq

/-- The guest framebuffer descriptor passed to `SwapBuffers`
(`Tegra::FramebufferConfig`): the fields the function reads. -/
structure FramebufferConfig where
  address : Nat
  offset : Nat
  stride : Nat
  deriving DecidableEq

/-- Modelled from the spec: the Presentation Engine's cached state.  The file
`vk_swapchain.cpp` is not part of the excerpt; per the spec, "the engine's
image extent and color-space always match the last values passed to its
creation call", so the cached state is the extent and the color-space flag. -/
structure SwapchainState where
  width : Nat
  height : Nat
  srgb : Bool
  deriving DecidableEq

/-- Modelled from the spec: `VKSwapchain::Create(width, height, srgb)` caches
exactly the parameters passed to it. -/
def swapchainCreate (width height : Nat) (srgb : Bool) : SwapchainState :=
  { width := width, height := height, srgb := srgb }

/-- Modelled from the spec: `VKSwapchain::HasFramebufferChanged(layout)`
compares the cached extent against the polled window layout ("If cached
presentation-engine size/color-space differs from current"). -/
def hasFramebufferChanged (s : SwapchainState) (layout : FramebufferLayout) : Bool :=
  s.width != layout.width || s.height != layout.height

/-- Renderer state read and written by `SwapBuffers`: the swapchain's cached
state and the `screen_info.is_srgb` flag reported by the accelerated path. -/
structure RendererState where
  swapchain : SwapchainState
  screenInfoSrgb : Bool
  deriving DecidableEq

/-- One observable call made by `SwapBuffers` to a collaborator, in program
order.  `acquireNextImage` records the swapchain state in effect when the
image is acquired; `present` records the staleness result it returned. -/
inductive Event where
  | accelerateDisplay
  | swapchainCreateCall (width height : Nat) (srgb : Bool)
  | blitRecreate
  | waitWorker
  | acquireNextImage (engine : SwapchainState)
  | blitDraw
  | schedulerFlush
  | present (stale : Bool)
  | tickFrame
  | onFrameDisplayed
  deriving DecidableEq

/-- Recognizes the `swapchain->AcquireNextImage()` call. -/
def isAcquire : Event → Bool
  | Event.acquireNextImage _ => true
  | _ => false

/-- Recognizes the `swapchain->Present(semaphore)` call. -/
def isPresent : Event → Bool
  | Event.present _ => true
  | _ => false

/-- Recognizes the `swapchain->Create(...)` call. -/
def isSwapchainCreate : Event → Bool
  | Event.swapchainCreateCall _ _ _ => true
  | _ => false

/-- Recognizes the `scheduler->WaitWorker()` call. -/
def isWaitWorker : Event → Bool
  | Event.waitWorker => true
  | _ => false

/-- `RendererVulkan::SwapBuffers(framebuffer)` (lines 108-138).  Returns the
updated renderer state and the trace of collaborator calls.  Oracle inputs:
`layout` and `shown` are polled from the window, `accelerateDisplayResult` is
the value returned by `rasterizer->AccelerateDisplay`, and `presentStale` is
the staleness flag returned by `swapchain->Present`. -/
def swapBuffers (st : RendererState) (framebuffer : Option FramebufferConfig)
    (layout : FramebufferLayout) (shown : Bool)
    (accelerateDisplayResult : Bool) (presentStale : Bool) :
    RendererState × List Event :=
  match framebuffer with
  | none => (st, [])
  | some _fb =>
    if 0 < layout.width ∧ 0 < layout.height ∧ shown = true then
      let use_accelerated := accelerateDisplayResult
      let is_srgb := use_accelerated && st.screenInfoSrgb
      let recreate :=
        hasFramebufferChanged st.swapchain layout || st.swapchain.srgb != is_srgb
      let sw :=
        if recreate then swapchainCreate layout.width layout.height is_srgb
        else st.swapchain
      let trace :=
        [Event.accelerateDisplay] ++
        (if recreate then
          [Event.swapchainCreateCall layout.width layout.height is_srgb,
           Event.blitRecreate]
         else []) ++
        [Event.waitWorker, Event.acquireNextImage sw, Event.blitDraw,
         Event.schedulerFlush, Event.present presentStale] ++
        (if presentStale then [Event.blitRecreate] else []) ++
        [Event.tickFrame, Event.onFrameDisplayed]
      ({ st with swapchain := sw }, trace)
    else
      (st, [Event.onFrameDisplayed])

/-- `RendererVulkan::Init` (lines 160-162): after a successful `Init` the
swapchain is created from the polled framebuffer layout with the color-space
flag hard-coded to `false`. -/
def initSwapchain (framebuffer : FramebufferLayout) : SwapchainState :=
  swapchainCreate framebuffer.width framebuffer.height false

/-- One observable step of `RendererVulkan::ShutDown`. -/
inductive ShutdownEvent where
  | waitIdle
  | releaseRasterizer
  | releaseBlitScreen
  | releaseScheduler
  | releaseSwapchain
  | releaseMemoryManager
  | releaseDevice
  deriving DecidableEq

/-- `RendererVulkan::ShutDown` (lines 175-189).  `device` models the
`std::unique_ptr<VKDevice>`: `none` when the pointer is null, `some v` when it
is non-null with `v` recording whether `device->GetLogical()` is a valid
(non-null) logical device handle. -/
def shutDown (device : Option Bool) : List ShutdownEvent :=
  match device with
  | none => []
  | some logicalValid =>
    (if logicalValid then [ShutdownEvent.waitIdle] else []) ++
    [ShutdownEvent.releaseRasterizer, ShutdownEvent.releaseBlitScreen,
     ShutdownEvent.releaseScheduler, ShutdownEvent.releaseSwapchain,
     ShutdownEvent.releaseMemoryManager, ShutdownEvent.releaseDevice]

/-- `RendererVulkan::PickDevices` (lines 247-268).  `devices` is the result of
`instance.EnumeratePhysicalDevices()`, `deviceIndex` the signed
`Settings::values.vulkan_device` setting, `isSuitable` the oracle for
`VKDevice::IsSuitable`, and `createOk` the oracle for `device->Create()`.
Returns the boolean result together with a flag recording whether logical
device construction (`std::make_unique<VKDevice>` + `Create`) was attempted. -/
def pickDevices (devices : Option (List Nat)) (deviceIndex : Int)
    (isSuitable : Nat → Bool) (createOk : Bool) : Bool × Bool :=
  match devices with
  | none => (false, false)
  | some devs =>
    if deviceIndex < 0 || (devs.length : Int) ≤ deviceIndex then
      (false, false)
    else
      let physical_device := devs.getD deviceIndex.toNat 0
      if !isSuitable physical_device then
        (false, false)
      else
        (createOk, true)

/-- Byte-wise lexicographic strict order on character lists, the comparison
performed by `std::string::operator<` (via `char_traits<char>::compare`,
which compares as unsigned bytes). -/
def lexLtb : List Char → List Char → Bool
  | [], [] => false
  | [], _ :: _ => true
  | _ :: _, [] => false
  | x :: xs, y :: ys =>
    if x.toNat < y.toNat then true
    else if y.toNat < x.toNat then false
    else lexLtb xs ys

/-- Insert a string into a list sorted by `lexLtb`, keeping it sorted.
Together with `sortExtensions` this models the `std::sort` call. -/
def insertExt (x : String) : List String → List String
  | [] => [x]
  | y :: ys => if lexLtb y.data x.data then y :: insertExt x ys else x :: y :: ys

/-- Sorting model for `std::sort(begin, end)` over `std::string` in
ascending lexicographic order. -/
def sortExtensions : List String → List String
  | [] => []
  | x :: xs => insertExt x (sortExtensions xs)

/-- The joining loop of `BuildCommaSeparatedExtensions` (lines 84-91): append
each element followed by a comma, except the last element which is appended
bare. -/
def joinLoop : List String → String
  | [] => ""
  | [x] => x
  | x :: xs => x ++ "," ++ joinLoop xs

/-- `BuildCommaSeparatedExtensions` (lines 77-93): sort the extension names,
then join them with commas, without a trailing comma. -/
def buildCommaSeparatedExtensions (available_extensions : List String) : String :=
  joinLoop (sortExtensions available_extensions)

/-- `VK_DRIVER_ID_NVIDIA_PROPRIETARY_KHR` from the Vulkan headers. -/
def VK_DRIVER_ID_NVIDIA_PROPRIETARY_KHR : Nat := 4

/-- `VK_DRIVER_ID_INTEL_PROPRIETARY_WINDOWS_KHR` from the Vulkan headers. -/
def VK_DRIVER_ID_INTEL_PROPRIETARY_WINDOWS_KHR : Nat := 5

/-- The cached device properties `GetDriverVersion` reads: the encoded 32-bit
driver version and the `VkDriverId`. -/
structure VKDeviceProps where
  driverVersion : Nat
  driverID : Nat
  deriving DecidableEq

/-- `GetReadableVersion` (lines 52-55): the generic Vulkan decoding
`VK_VERSION_MAJOR`/`VK_VERSION_MINOR`/`VK_VERSION_PATCH`, i.e. 10/10/12 bit
fields, formatted major.minor.patch. -/
def getReadableVersion (version : Nat) : String :=
  toString (version >>> 22) ++ "." ++ toString ((version >>> 12) &&& 0x3ff) ++
  "." ++ toString (version &&& 0xfff)

/-- `GetDriverVersion` (lines 57-75): vendor-specific decoding of the encoded
driver version; NVIDIA proprietary uses a 10/8/8/6 split, Intel proprietary
Windows a 18/14 split, anything else the generic decoding. -/
def getDriverVersion (device : VKDeviceProps) : String :=
  let version := device.driverVersion
  if device.driverID = VK_DRIVER_ID_NVIDIA_PROPRIETARY_KHR then
    let major := (version >>> 22) &&& 0x3ff
    let minor := (version >>> 14) &&& 0x0ff
    let secondary := (version >>> 6) &&& 0x0ff
    let tertiary := version &&& 0x003f
    toString major ++ "." ++ toString minor ++ "." ++ toString secondary ++
      "." ++ toString tertiary
  else if device.driverID = VK_DRIVER_ID_INTEL_PROPRIETARY_WINDOWS_KHR then
    let major := version >>> 14
    let minor := version &&& 0x3fff
    toString major ++ "." ++ toString minor
  else
    getReadableVersion version

/-! ### Properties of the byte-wise lexicographic comparison -/

theorem lexLtb_asymm : ∀ (a b : List Char), lexLtb a b = true → lexLtb b a = false := by
  intro a
  induction a with
  | nil =>
    intro b h
    cases b with
    | nil => simp [lexLtb] at h
    | cons y ys => simp [lexLtb]
  | cons x xs ih =>
    intro b h
    cases b with
    | nil => simp [lexLtb] at h
    | cons y ys =>
      simp only [lexLtb] at h ⊢
      by_cases hxy : x.toNat < y.toNat
      · rw [if_neg (by omega : ¬ y.toNat < x.toNat), if_pos hxy]
      · rw [if_neg hxy] at h
        by_cases hyx : y.toNat < x.toNat
        · rw [if_pos hyx] at h; simp at h
        · rw [if_neg hyx] at h
          rw [if_neg hyx, if_neg hxy]
          exact ih ys h

theorem lexLtb_false_trans :
    ∀ (a b c : List Char), lexLtb b a = false → lexLtb c b = false → lexLtb c a = false := by
  intro a
  induction a with
  | nil =>
    intro b c h1 h2
    cases b <;> cases c <;> simp_all [lexLtb]
  | cons x xs ih =>
    intro b c h1 h2
    cases b with
    | nil => simp [lexLtb] at h1
    | cons y ys =>
      cases c with
      | nil => simp [lexLtb] at h2
      | cons z zs =>
        simp only [lexLtb] at h1 h2 ⊢
        by_cases hyx : y.toNat < x.toNat
        · rw [if_pos hyx] at h1; simp at h1
        · rw [if_neg hyx] at h1
          by_cases hzy : z.toNat < y.toNat
          · rw [if_pos hzy] at h2; simp at h2
          · rw [if_neg hzy] at h2
            rw [if_neg (by omega : ¬ z.toNat < x.toNat)]
            by_cases hxz : x.toNat < z.toNat
            · rw [if_pos hxz]
            · rw [if_neg hxz]
              have hxy : ¬ x.toNat < y.toNat := by omega
              have hyz : ¬ y.toNat < z.toNat := by omega
              rw [if_neg hxy] at h1
              rw [if_neg hyz] at h2
              exact ih ys zs h1 h2

/-! ### The sorting model is a sorted permutation -/

theorem insertExt_perm (x : String) : ∀ (l : List String), (insertExt x l).Perm (x :: l) := by
  intro l
  induction l with
  | nil => simp [insertExt]
  | cons y ys ih =>
    simp only [insertExt]
    by_cases hc : lexLtb y.data x.data
    · rw [if_pos hc]
      exact ((ih.cons y).trans (List.Perm.swap x y ys))
    · rw [if_neg hc]

theorem sortExtensions_perm : ∀ (l : List String), (sortExtensions l).Perm l := by
  intro l
  induction l with
  | nil => simp [sortExtensions]
  | cons x xs ih =>
    simp only [sortExtensions]
    exact (insertExt_perm x (sortExtensions xs)).trans (ih.cons x)

theorem insertExt_pairwise (x : String) :
    ∀ (l : List String), l.Pairwise (fun a b => lexLtb b.data a.data = false) →
      (insertExt x l).Pairwise (fun a b => lexLtb b.data a.data = false) := by
  intro l
  induction l with
  | nil => intro _; simp [insertExt]
  | cons y ys ih =>
    intro h
    rw [List.pairwise_cons] at h
    obtain ⟨hy, hys⟩ := h
    simp only [insertExt]
    by_cases hc : lexLtb y.data x.data
    · rw [if_pos hc, List.pairwise_cons]
      refine ⟨?_, ih hys⟩
      intro z hz
      have hz' : z = x ∨ z ∈ ys := by
        have := (insertExt_perm x ys).mem_iff.mp hz
        simpa using this
      rcases hz' with rfl | hz'
      · exact lexLtb_asymm y.data z.data hc
      · exact hy z hz'
    · rw [if_neg hc, List.pairwise_cons]
      have hyx : lexLtb y.data x.data = false := by
        simpa using hc
      refine ⟨?_, List.pairwise_cons.mpr ⟨hy, hys⟩⟩
      intro z hz
      rcases hz with _ | hz'
      · exact hyx
      · exact lexLtb_false_trans x.data y.data z.data hyx (hy z (by assumption))

theorem sortExtensions_pairwise :
    ∀ (l : List String),
      (sortExtensions l).Pairwise (fun a b => lexLtb b.data a.data = false) := by
  intro l
  induction l with
  | nil => simp [sortExtensions]
  | cons x xs ih => exact insertExt_pairwise x (sortExtensions xs) ih

/-! ### The joining loop is comma intercalation -/

theorem intercalate_go_append (s : String) :
    ∀ (as : List String) (acc b : String),
      String.intercalate.go (acc ++ b) s as = acc ++ String.intercalate.go b s as := by
  intro as
  induction as with
  | nil => intro acc b; simp [String.intercalate.go]
  | cons a as ih =>
    intro acc b
    simp only [String.intercalate.go]
    have : acc ++ b ++ s ++ a = acc ++ (b ++ s ++ a) := by
      simp [String.append_assoc]
    rw [this, ih acc (b ++ s ++ a)]

theorem joinLoop_eq_intercalate : ∀ (l : List String), joinLoop l = String.intercalate "," l := by
  intro l
  induction l with
  | nil => rfl
  | cons x xs ih =>
    cases xs with
    | nil => rfl
    | cons y ys =>
      simp only [joinLoop] at ih ⊢
      rw [ih]
      show _ = String.intercalate.go x "," (y :: ys)
      simp only [String.intercalate.go]
      rw [intercalate_go_append "," ys (x ++ ",") y]
      rfl

/-! ### Unfolding the per-frame protocol on the presentation path -/

theorem swapBuffers_some_pos (st : RendererState) (cfg : FramebufferConfig)
    (layout : FramebufferLayout) (shown acc ps : Bool)
    (hw : 0 < layout.width) (hh : 0 < layout.height) (hs : shown = true) :
    swapBuffers st (some cfg) layout shown acc ps =
      ({ st with swapchain :=
          if hasFramebufferChanged st.swapchain layout ||
              st.swapchain.srgb != (acc && st.screenInfoSrgb) then
            swapchainCreate layout.width layout.height (acc && st.screenInfoSrgb)
          else st.swapchain },
       [Event.accelerateDisplay] ++
       (if hasFramebufferChanged st.swapchain layout ||
            st.swapchain.srgb != (acc && st.screenInfoSrgb) then
          [Event.swapchainCreateCall layout.width layout.height (acc && st.screenInfoSrgb),
           Event.blitRecreate]
        else []) ++
       [Event.waitWorker,
        Event.acquireNextImage
          (if hasFramebufferChanged st.swapchain layout ||
              st.swapchain.srgb != (acc && st.screenInfoSrgb) then
            swapchainCreate layout.width layout.height (acc && st.screenInfoSrgb)
           else st.swapchain),
        Event.blitDraw, Event.schedulerFlush, Event.present ps] ++
       (if ps then [Event.blitRecreate] else []) ++
       [Event.tickFrame, Event.onFrameDisplayed]) := by
  simp only [swapBuffers]
  rw [if_pos ⟨hw, hh, hs⟩]

/-- C1: the claim asserts that `SwapBuffers(nullptr)` still fires the
`OnFrameDisplayed` notification; in the code the early `return` at line 110
precedes the notification at line 137, so no notification fires: at a concrete
absent-framebuffer invocation, the `OnFrameDisplayed` count in the trace is 0
and not the claimed 1. -/
theorem swapBuffers_none_counterexample :
    ((swapBuffers ⟨⟨1, 1, false⟩, false⟩ none ⟨5, 5⟩ true false false).2.count
      Event.onFrameDisplayed) ≠ 1 := by
  decide

/-- C1 (amended): for every invocation of the per-frame protocol with an
absent framebuffer argument, no acquire, present, or other collaborator call
occurs at all — in particular the `OnFrameDisplayed` notification is not
invoked — and the renderer state is unchanged: the call returns immediately
with an empty trace. -/
theorem swapBuffers_none_no_calls (st : RendererState) (layout : FramebufferLayout)
    (shown acc ps : Bool) :
    swapBuffers st none layout shown acc ps = (st, []) := rfl

/-- C3: for every invocation of `SwapBuffers` with a non-null framebuffer and
a window layout with positive width and height and a shown window,
`AcquireNextImage` is called exactly once and `Present` is called exactly
once. -/
theorem swapBuffers_acquire_present_once (st : RendererState) (cfg : FramebufferConfig)
    (layout : FramebufferLayout) (shown acc ps : Bool)
    (hw : 0 < layout.width) (hh : 0 < layout.height) (hs : shown = true) :
    (swapBuffers st (some cfg) layout shown acc ps).2.countP isAcquire = 1 ∧
    (swapBuffers st (some cfg) layout shown acc ps).2.countP isPresent = 1 := by
  rw [swapBuffers_some_pos st cfg layout shown acc ps hw hh hs]
  cases hr : (hasFramebufferChanged st.swapchain layout ||
      st.swapchain.srgb != (acc && st.screenInfoSrgb)) <;>
    cases ps <;>
      simp [List.countP_append, List.countP_cons, isAcquire, isPresent]

/-- Closed witness for `swapBuffers_acquire_present_once` at a concrete
invocation. -/
theorem swapBuffers_acquire_present_once_witness :
    (swapBuffers ⟨⟨5, 5, false⟩, false⟩ (some ⟨0, 0, 0⟩) ⟨5, 5⟩ true false false).2.countP
        isAcquire = 1 ∧
    (swapBuffers ⟨⟨5, 5, false⟩, false⟩ (some ⟨0, 0, 0⟩) ⟨5, 5⟩ true false false).2.countP
        isPresent = 1 :=
  swapBuffers_acquire_present_once ⟨⟨5, 5, false⟩, false⟩ ⟨0, 0, 0⟩ ⟨5, 5⟩ true false false
    (by decide) (by decide) rfl

/-- C4: for every invocation of `SwapBuffers` with a non-null framebuffer but
a window layout with zero width or zero height, or a hidden window, no
presentation step is performed — the trace consists of exactly the
`OnFrameDisplayed` housekeeping notification — and the renderer state is
unchanged. -/
theorem swapBuffers_skip_presentation (st : RendererState) (cfg : FramebufferConfig)
    (layout : FramebufferLayout) (shown acc ps : Bool)
    (h : layout.width = 0 ∨ layout.height = 0 ∨ shown = false) :
    swapBuffers st (some cfg) layout shown acc ps = (st, [Event.onFrameDisplayed]) := by
  simp only [swapBuffers]
  rw [if_neg]
  rintro ⟨hw, hh, hs⟩
  rcases h with h | h | h
  · omega
  · omega
  · rw [hs] at h; exact Bool.false_ne_true h.symm

/-- Closed witness for `swapBuffers_skip_presentation` at a concrete
zero-width invocation. -/
theorem swapBuffers_skip_presentation_witness :
    swapBuffers ⟨⟨1, 1, false⟩, false⟩ (some ⟨0, 0, 0⟩) ⟨0, 5⟩ true false false =
      (⟨⟨1, 1, false⟩, false⟩, [Event.onFrameDisplayed]) :=
  swapBuffers_skip_presentation ⟨⟨1, 1, false⟩, false⟩ ⟨0, 0, 0⟩ ⟨0, 5⟩ true false false
    (Or.inl rfl)

/-- C2: counterexample to the claim as stated.  The claim quantifies over
every non-null-framebuffer invocation in which the polled layout differs from
the engine's cached state and asserts the engine is recreated before
`WaitWorker`/`AcquireNextImage`; but when the window is hidden (or the layout
extent is zero) the code skips the whole presentation block, so at this
concrete invocation the cached extent mismatches the polled layout and yet no
swapchain `Create` and no `WaitWorker` occurs at all. -/
theorem swapBuffers_stale_hidden_counterexample :
    hasFramebufferChanged (⟨10, 10, false⟩ : SwapchainState) ⟨20, 20⟩ = true ∧
    (swapBuffers ⟨⟨10, 10, false⟩, false⟩ (some ⟨0, 0, 0⟩) ⟨20, 20⟩ false false
        false).2.countP isSwapchainCreate = 0 ∧
    (swapBuffers ⟨⟨10, 10, false⟩, false⟩ (some ⟨0, 0, 0⟩) ⟨20, 20⟩ false false
        false).2.countP isWaitWorker = 0 := by
  decide

/-- C2 (amended): for every invocation of `SwapBuffers` with a non-null
framebuffer, positive layout extent and a shown window, in which the polled
layout or the requested color-space flag differs from the engine's cached
state, the engine is recreated (swapchain `Create` together with blit-target
`Recreate`) before `WaitWorker` and before `AcquireNextImage`; and on every
such presentation-path invocation `AcquireNextImage` is only ever called with
an engine state matching the current layout and color-space. -/
theorem swapBuffers_recreate_before_acquire (st : RendererState) (cfg : FramebufferConfig)
    (layout : FramebufferLayout) (shown acc ps : Bool)
    (hw : 0 < layout.width) (hh : 0 < layout.height) (hs : shown = true)
    (hmis : (hasFramebufferChanged st.swapchain layout ||
      st.swapchain.srgb != (acc && st.screenInfoSrgb)) = true) :
    ((swapBuffers st (some cfg) layout shown acc ps).2 =
      [Event.accelerateDisplay,
       Event.swapchainCreateCall layout.width layout.height (acc && st.screenInfoSrgb),
       Event.blitRecreate, Event.waitWorker,
       Event.acquireNextImage
         (swapchainCreate layout.width layout.height (acc && st.screenInfoSrgb)),
       Event.blitDraw, Event.schedulerFlush, Event.present ps] ++
      (if ps then [Event.blitRecreate] else []) ++
      [Event.tickFrame, Event.onFrameDisplayed]) ∧
    (∀ sw, Event.acquireNextImage sw ∈ (swapBuffers st (some cfg) layout shown acc ps).2 →
      hasFramebufferChanged sw layout = false ∧ sw.srgb = (acc && st.screenInfoSrgb)) := by
  rw [swapBuffers_some_pos st cfg layout shown acc ps hw hh hs]
  constructor
  · simp [hmis]
  · intro sw hsw
    simp only [hmis, if_true] at hsw
    cases ps <;> simp at hsw <;>
      simp [hsw, hasFramebufferChanged, swapchainCreate]

/-- Closed witness for `swapBuffers_recreate_before_acquire` at a concrete
layout-mismatch invocation. -/
theorem swapBuffers_recreate_before_acquire_witness :
    (swapBuffers ⟨⟨10, 10, false⟩, false⟩ (some ⟨0, 0, 0⟩) ⟨20, 20⟩ true false false).2 =
      [Event.accelerateDisplay, Event.swapchainCreateCall 20 20 false,
       Event.blitRecreate, Event.waitWorker,
       Event.acquireNextImage (swapchainCreate 20 20 false),
       Event.blitDraw, Event.schedulerFlush, Event.present false] ++
      (if false then [Event.blitRecreate] else []) ++
      [Event.tickFrame, Event.onFrameDisplayed] :=
  (swapBuffers_recreate_before_acquire ⟨⟨10, 10, false⟩, false⟩ ⟨0, 0, 0⟩ ⟨20, 20⟩
    true false false (by decide) (by decide) rfl (by decide)).1

/-- C5: counterexample to the claim as stated.  The claim asserts that in an
invocation where `Present` reports staleness the presentation engine is not
recreated within that invocation; but the mismatch check at the start of the
same invocation can recreate the engine: at this concrete invocation the
trace contains `present true` and also a swapchain `Create`. -/
theorem present_stale_recreate_counterexample :
    Event.present true ∈
      (swapBuffers ⟨⟨10, 10, false⟩, false⟩ (some ⟨0, 0, 0⟩) ⟨20, 20⟩ true false true).2 ∧
    (swapBuffers ⟨⟨10, 10, false⟩, false⟩ (some ⟨0, 0, 0⟩) ⟨20, 20⟩ true false
        true).2.countP isSwapchainCreate ≠ 0 := by
  decide

/-- C5 (amended): for every presentation-path invocation in which `Present`
reports staleness, the dependent blit target is recreated immediately after
the present call within the same invocation, and no engine recreation occurs
after the present call in that invocation — the trace after the single
`present` event is exactly blit `Recreate`, `TickFrame`, `OnFrameDisplayed`
(engine recreation in response to the staleness is deferred to the mismatch
check of the next invocation). -/
theorem present_stale_blit_recreate (st : RendererState) (cfg : FramebufferConfig)
    (layout : FramebufferLayout) (shown acc : Bool)
    (hw : 0 < layout.width) (hh : 0 < layout.height) (hs : shown = true) :
    ∃ pre, (swapBuffers st (some cfg) layout shown acc true).2 =
        pre ++ [Event.present true, Event.blitRecreate, Event.tickFrame,
          Event.onFrameDisplayed] ∧
      pre.countP isPresent = 0 := by
  rw [swapBuffers_some_pos st cfg layout shown acc true hw hh hs]
  cases hr : (hasFramebufferChanged st.swapchain layout ||
      st.swapchain.srgb != (acc && st.screenInfoSrgb))
  · refine ⟨[Event.accelerateDisplay, Event.waitWorker,
      Event.acquireNextImage st.swapchain, Event.blitDraw, Event.schedulerFlush], ?_, ?_⟩
    · simp [hr]
    · simp [isPresent]
  · refine ⟨[Event.accelerateDisplay,
      Event.swapchainCreateCall layout.width layout.height (acc && st.screenInfoSrgb),
      Event.blitRecreate, Event.waitWorker,
      Event.acquireNextImage
        (swapchainCreate layout.width layout.height (acc && st.screenInfoSrgb)),
      Event.blitDraw, Event.schedulerFlush], ?_, ?_⟩
    · simp [hr]
    · simp [isPresent]

/-- Closed witness for `present_stale_blit_recreate` at a concrete stale
invocation. -/
theorem present_stale_blit_recreate_witness :
    ∃ pre, (swapBuffers ⟨⟨5, 5, false⟩, false⟩ (some ⟨0, 0, 0⟩) ⟨5, 5⟩ true false true).2 =
        pre ++ [Event.present true, Event.blitRecreate, Event.tickFrame,
          Event.onFrameDisplayed] ∧
      pre.countP isPresent = 0 :=
  present_stale_blit_recreate ⟨⟨5, 5, false⟩, false⟩ ⟨0, 0, 0⟩ ⟨5, 5⟩ true false
    (by decide) (by decide) rfl

/-- C10: after a successful `Init` the swapchain is created with the
color-space flag hard-coded to `false` regardless of the reported
`screen_info.is_srgb`; consequently, on a first presentation-path frame whose
content is accelerated and reports sRGB, the mismatch check necessarily
recreates the engine before the first `AcquireNextImage`. -/
theorem init_srgb_false_recreate_on_first_srgb_frame
    (initLayout layout : FramebufferLayout) (cfg : FramebufferConfig)
    (shown srgbFlag ps : Bool)
    (hw : 0 < layout.width) (hh : 0 < layout.height) (hs : shown = true)
    (hsrgb : srgbFlag = true) :
    (initSwapchain initLayout).srgb = false ∧
    ∃ rest,
      (swapBuffers ⟨initSwapchain initLayout, srgbFlag⟩ (some cfg) layout shown true ps).2 =
        [Event.accelerateDisplay,
         Event.swapchainCreateCall layout.width layout.height true,
         Event.blitRecreate, Event.waitWorker,
         Event.acquireNextImage (swapchainCreate layout.width layout.height true)] ++
        rest := by
  subst hsrgb
  refine ⟨rfl, ?_⟩
  rw [swapBuffers_some_pos _ cfg layout shown true ps hw hh hs]
  refine ⟨[Event.blitDraw, Event.schedulerFlush, Event.present ps] ++
    (if ps then [Event.blitRecreate] else []) ++
    [Event.tickFrame, Event.onFrameDisplayed], ?_⟩
  simp [initSwapchain, swapchainCreate, hasFramebufferChanged]

/-- Closed witness for `init_srgb_false_recreate_on_first_srgb_frame` at a
concrete first sRGB frame. -/
theorem init_srgb_false_recreate_witness :
    (initSwapchain ⟨5, 5⟩).srgb = false ∧
    ∃ rest,
      (swapBuffers ⟨initSwapchain ⟨5, 5⟩, true⟩ (some ⟨0, 0, 0⟩) ⟨5, 5⟩ true true false).2 =
        [Event.accelerateDisplay, Event.swapchainCreateCall 5 5 true,
         Event.blitRecreate, Event.waitWorker,
         Event.acquireNextImage (swapchainCreate 5 5 true)] ++ rest :=
  init_srgb_false_recreate_on_first_srgb_frame ⟨5, 5⟩ ⟨5, 5⟩ ⟨0, 0, 0⟩ true true false
    (by decide) (by decide) rfl rfl

/-- C6: for every enumerated device list and every explicit index that is
negative, not below the device count, or in range but failing the suitability
predicate, `PickDevices` fails (returns `false`) and never attempts logical
device construction. -/
theorem pickDevices_rejects (devs : List Nat) (deviceIndex : Int)
    (isSuitable : Nat → Bool) (createOk : Bool)
    (h : deviceIndex < 0 ∨ (devs.length : Int) ≤ deviceIndex ∨
      isSuitable (devs.getD deviceIndex.toNat 0) = false) :
    pickDevices (some devs) deviceIndex isSuitable createOk = (false, false) := by
  rcases h with h | h | h
  · simp [pickDevices, h]
  · simp [pickDevices, h]
  · simp only [pickDevices]
    split
    · rfl
    · simp only [List.getD, List.get?_eq_getElem?] at h
      simp [h]

/-- Closed witness for `pickDevices_rejects`: index equal to the device count
is rejected without constructing the device. -/
theorem pickDevices_rejects_witness :
    pickDevices (some [7, 8]) 2 (fun _ => true) true = (false, false) :=
  pickDevices_rejects [7, 8] 2 (fun _ => true) true (Or.inr (Or.inl (by decide)))

/-- C7: `BuildCommaSeparatedExtensions` returns its input sorted in ascending
(byte-wise lexicographic) order and joined with single commas and no trailing
comma — the result is the comma-intercalation of a sorted permutation of the
input — and on the concrete input b, a, c it returns the string a,b,c. -/
theorem buildCommaSeparatedExtensions_sorted_join :
    (∀ available_extensions : List String,
      ∃ xs : List String,
        xs.Perm available_extensions ∧
        xs.Pairwise (fun a b => lexLtb b.data a.data = false) ∧
        buildCommaSeparatedExtensions available_extensions = String.intercalate "," xs) ∧
    buildCommaSeparatedExtensions ["b", "a", "c"] = "a,b,c" :=
  ⟨fun exts =>
    ⟨sortExtensions exts, sortExtensions_perm exts, sortExtensions_pairwise exts,
      joinLoop_eq_intercalate (sortExtensions exts)⟩,
   rfl⟩

/-- C8: decoding of the 32-bit encoded driver version.  For the NVIDIA
proprietary driver id the result is the 10/8/8/6-bit four-field string, for
the Intel proprietary Windows driver id the 18/14-bit two-field string, and
for any other driver id the generic Vulkan 10/10/12-bit major.minor.patch
string of `GetReadableVersion`. -/
theorem getDriverVersion_decoding (version driverID : Nat) (hv : version < 2 ^ 32) :
    (driverID = VK_DRIVER_ID_NVIDIA_PROPRIETARY_KHR →
      getDriverVersion ⟨version, driverID⟩ =
        toString ((version >>> 22) &&& 0x3ff) ++ "." ++
        toString ((version >>> 14) &&& 0x0ff) ++ "." ++
        toString ((version >>> 6) &&& 0x0ff) ++ "." ++
        toString (version &&& 0x003f)) ∧
    (driverID = VK_DRIVER_ID_INTEL_PROPRIETARY_WINDOWS_KHR →
      getDriverVersion ⟨version, driverID⟩ =
        toString (version >>> 14) ++ "." ++ toString (version &&& 0x3fff)) ∧
    (driverID ≠ VK_DRIVER_ID_NVIDIA_PROPRIETARY_KHR →
      driverID ≠ VK_DRIVER_ID_INTEL_PROPRIETARY_WINDOWS_KHR →
      getDriverVersion ⟨version, driverID⟩ = getReadableVersion version ∧
      getReadableVersion version =
        toString (version >>> 22) ++ "." ++ toString ((version >>> 12) &&& 0x3ff) ++
        "." ++ toString (version &&& 0xfff)) := by
  refine ⟨?_, ?_, ?_⟩
  · intro h
    subst h
    rfl
  · intro h
    subst h
    rfl
  · intro h1 h2
    exact ⟨by simp [getDriverVersion, h1, h2], rfl⟩

/-- Closed witness for `getDriverVersion_decoding` at a concrete NVIDIA-style
encoded version. -/
theorem getDriverVersion_decoding_witness :
    getDriverVersion ⟨(470 <<< 22) + (182 <<< 14) + (3 <<< 6) + 5,
        VK_DRIVER_ID_NVIDIA_PROPRIETARY_KHR⟩ =
      toString ((((470 <<< 22) + (182 <<< 14) + (3 <<< 6) + 5) >>> 22) &&& 0x3ff) ++ "." ++
      toString ((((470 <<< 22) + (182 <<< 14) + (3 <<< 6) + 5) >>> 14) &&& 0x0ff) ++ "." ++
      toString ((((470 <<< 22) + (182 <<< 14) + (3 <<< 6) + 5) >>> 6) &&& 0x0ff) ++ "." ++
      toString (((470 <<< 22) + (182 <<< 14) + (3 <<< 6) + 5) &&& 0x003f) :=
  (getDriverVersion_decoding ((470 <<< 22) + (182 <<< 14) + (3 <<< 6) + 5)
    VK_DRIVER_ID_NVIDIA_PROPRIETARY_KHR (by decide)).1 rfl

/-- C9: counterexample to the claim as stated.  The claim asserts that every
`ShutDown` on a renderer with a non-null device performs the wait-for-idle
barrier before releasing the GPU-owned components; but the code only waits
when `device->GetLogical()` is a valid handle, a state that arises when
`VKDevice::Create()` failed during `Init`: at this concrete shutdown the
trace releases the device without any `waitIdle`. -/
theorem shutDown_no_wait_counterexample :
    ShutdownEvent.waitIdle ∉ shutDown (some false) ∧
    ShutdownEvent.releaseDevice ∈ shutDown (some false) := by
  decide

/-- C9 (amended): `ShutDown` on a renderer whose device pointer and logical
device handle are both valid performs the wait-for-idle barrier first, before
releasing rasterizer, blit target, scheduler, swapchain, memory manager and
device in that order; if the device pointer is non-null but the logical handle
is null the components are released without a wait; and `ShutDown` on a
never-initialized renderer (null device pointer) performs no release and no
wait. -/
theorem shutDown_wait_before_release :
    shutDown (some true) =
      [ShutdownEvent.waitIdle, ShutdownEvent.releaseRasterizer,
       ShutdownEvent.releaseBlitScreen, ShutdownEvent.releaseScheduler,
       ShutdownEvent.releaseSwapchain, ShutdownEvent.releaseMemoryManager,
       ShutdownEvent.releaseDevice] ∧
    shutDown (some false) =
      [ShutdownEvent.releaseRasterizer, ShutdownEvent.releaseBlitScreen,
       ShutdownEvent.releaseScheduler, ShutdownEvent.releaseSwapchain,
       ShutdownEvent.releaseMemoryManager, ShutdownEvent.releaseDevice] ∧
    shutDown none = [] := by
  decide

end RendererVulkan
